import Mathlib

/-!
Shallow embedding of the ITM dump tool (src/bin/itmdump.rs): the packet
decoder `read_packet` and the stream loop `run`, together with proofs of
the behavioural properties claimed for them.

Bytes are modelled as natural numbers; a readable source is a list of
bytes that may, once exhausted, report an I/O error instead of a clean
end of input.  `read_exact` mirrors `std::io::Read::read_exact`:
a short read consumes everything available and reports `UnexpectedEof`
(or the pending I/O error), and bytes consumed by a failed call are not
restored.
-/

namespace Itm

/-- A readable byte source: the bytes still available followed, once they
run out, by either a clean end of input (`none`) or an I/O error with OS
code `k` (`some k`). -/
structure Source where
  data : List Nat
  errAfter : Option Nat
deriving Repr, DecidableEq

/-- Kind of an I/O-level error, as distinguished by the stream loop. -/
inductive IoErrK where
  | unexpectedEof : IoErrK
  | other : Nat → IoErrK
deriving Repr, DecidableEq

/-- The error side of the decoder result, mirroring the error-chain kinds
used by itmdump: an unrecognised header byte, or an I/O error. -/
inductive RPError where
  | UnknownHeader : Nat → RPError
  | ioErr : IoErrK → RPError
deriving Repr, DecidableEq

/-- Decoded ITM data packet, mirroring `struct Packet`. -/
structure Packet where
  header : Nat
  payload : List Nat
  port : Nat
deriving Repr, DecidableEq

/-- Result of one `read_packet` call.  `panicked` models the `expect`
call on `payload.push` aborting the process. -/
inductive RPResult where
  | ok : Packet → RPResult
  | err : RPError → RPResult
  | panicked : RPResult
deriving Repr, DecidableEq

/-- model of `Read::read_exact` on a `Source`: if `n` bytes are available
they are returned and consumed; otherwise everything available is
consumed and the call fails with `UnexpectedEof` on a clean end of input
or with the source's pending I/O error. -/
def read_exact (src : Source) (n : Nat) : Except IoErrK (List Nat) × Source :=
  if n ≤ src.data.length then
    (Except.ok (src.data.take n), ⟨src.data.drop n, src.errAfter⟩)
  else
    match src.errAfter with
    | none => (Except.error IoErrK.unexpectedEof, ⟨[], none⟩)
    | some k => (Except.error (IoErrK.other k), ⟨[], some k⟩)

/-- Mirrors `pub const MAX_PAYLOAD_SIZE: usize = 4;`. -/
def MAX_PAYLOAD_SIZE : Nat := 4

/-- model of `heapless::Vec::push` with capacity `MAX_PAYLOAD_SIZE`:
fails (returns `none`) when the vector is full. -/
def hvec_push (v : List Nat) (x : Nat) : Option (List Nat) :=
  if v.length < MAX_PAYLOAD_SIZE then some (v ++ [x]) else none

/-- model of the `for _ in 0..payload_size { packet.payload.push(0).expect(..) }`
loop: pushes `n` zeroes, returning `none` if any push fails (which in the
source would be a panic via `expect`). -/
def push_zeros : Nat → List Nat → Option (List Nat)
  | 0, v => some v
  | n + 1, v =>
    match hvec_push v 0 with
    | some w => push_zeros n w
    | none => none

/-- The inner `match header & 0b11` of `read_packet`, mapping the size
code to the payload length; `none` stands for the `_ => UnknownHeader`
arm. -/
def payload_size_of (header : Nat) : Option Nat :=
  if header &&& 0b11 = 0b01 then some 1
  else if header &&& 0b11 = 0b10 then some 2
  else if header &&& 0b11 = 0b11 then some 4
  else none

/-- model of `fn read_packet(input: &mut Read) -> Result<Packet>`: reads
one header byte, classifies it by its low three bits, and for a data
packet reads the payload.  Returns the outcome together with the source
as the call leaves it (the source is mutated in place in the original). -/
def read_packet (src : Source) : RPResult × Source :=
  match read_exact src 1 with
  | (Except.error k, src1) => (RPResult.err (RPError.ioErr k), src1)
  | (Except.ok hbs, src1) =>
    let header := hbs.headD 0
    let packet : Packet := ⟨header, [], header >>> 3⟩
    if header &&& 0b111 = 0b001 ∨ header &&& 0b111 = 0b010 ∨
        header &&& 0b111 = 0b011 then
      match payload_size_of header with
      | none => (RPResult.err (RPError.UnknownHeader header), src1)
      | some payload_size =>
        match push_zeros payload_size packet.payload with
        | none => (RPResult.panicked, src1)
        | some filled =>
          match read_exact src1 filled.length with
          | (Except.error k, src2) => (RPResult.err (RPError.ioErr k), src2)
          | (Except.ok bytes, src2) =>
            (RPResult.ok { packet with payload := bytes }, src2)
    else
      (RPResult.err (RPError.UnknownHeader header), src1)

/-! ## The stream loop (`fn run`) -/

/-- model of the locked stdout sink: each `write_all` call consumes the
head of `results` (`none` = success, `some k` = I/O error `k`); an empty
`results` list means every further write succeeds.  `written` records the
bytes written so far, in order. -/
structure SinkModel where
  results : List (Option Nat)
  written : List Nat
deriving Repr, DecidableEq

/-- model of `stdout.write_all(bytes)`. -/
def sink_write (s : SinkModel) (bs : List Nat) : Except Nat SinkModel :=
  match s.results with
  | [] => Except.ok ⟨[], s.written ++ bs⟩
  | none :: rest => Except.ok ⟨rest, s.written ++ bs⟩
  | some k :: _ => Except.error k

/-- Mirrors `thread::sleep(Duration::from_millis(100))` in the follow branch. -/
def retry_pause_millis : Nat := 100

/-- What one iteration of the `loop` in `fn run` does. -/
inductive StepResult where
  | next : Source → SinkModel → StepResult
  | pause : Nat → Source → SinkModel → StepResult
  | done : SinkModel → StepResult
  | fatal : RPError → SinkModel → StepResult
  | panicked : StepResult
deriving Repr, DecidableEq

/-- One iteration of the read loop of `fn run`: decode a packet; on
success write its payload to the sink when the port matches (a write
failure propagates as a fatal error via the try operator); on an unknown
header log and continue; on `UnexpectedEof` pause 100 ms when following,
otherwise return `Ok(())`; on any other I/O error return it. -/
def run_step (follow : Bool) (port : Nat) (src : Source) (sink : SinkModel) :
    StepResult :=
  match read_packet src with
  | (RPResult.ok p, src1) =>
    if p.port = port then
      match sink_write sink p.payload with
      | Except.ok sink1 => StepResult.next src1 sink1
      | Except.error k =>
        StepResult.fatal (RPError.ioErr (IoErrK.other k)) sink
    else
      StepResult.next src1 sink
  | (RPResult.err (RPError.UnknownHeader _), src1) => StepResult.next src1 sink
  | (RPResult.err (RPError.ioErr IoErrK.unexpectedEof), src1) =>
    if follow then
      StepResult.pause retry_pause_millis src1 sink
    else
      StepResult.done sink
  | (RPResult.err e, _) => StepResult.fatal e sink
  | (RPResult.panicked, _) => StepResult.panicked

/-- Outcome of running the loop for a bounded number of iterations. -/
inductive RunOutcome where
  | finished : SinkModel → RunOutcome
  | failed : RPError → SinkModel → RunOutcome
  | running : Source → SinkModel → RunOutcome
  | panicked : RunOutcome
deriving Repr, DecidableEq

/-- The loop of `fn run`, iterated with explicit fuel (the fuel only
bounds how far we unroll the loop; it is not part of the source). -/
def run_fuel : Nat → Bool → Nat → Source → SinkModel → RunOutcome
  | 0, _, _, src, sink => RunOutcome.running src sink
  | n + 1, follow, port, src, sink =>
    match run_step follow port src sink with
    | StepResult.next src1 sink1 => run_fuel n follow port src1 sink1
    | StepResult.pause _ src1 sink1 => run_fuel n follow port src1 sink1
    | StepResult.done sink1 => RunOutcome.finished sink1
    | StepResult.fatal e sink1 => RunOutcome.failed e sink1
    | StepResult.panicked => RunOutcome.panicked

/-! ## The loop as a state machine -/

/-- States of the stream loop: reading, pausing before a retry while
following, or terminated (successfully or with a fatal error). -/
inductive LoopState where
  | reading : Source → SinkModel → LoopState
  | retrying : Nat → Source → SinkModel → LoopState
  | termSuccess : SinkModel → LoopState
  | termFailure : RPError → SinkModel → LoopState
  | aborted : LoopState
deriving Repr, DecidableEq

/-- The transition function of the stream loop: `none` from a terminated
state (the process has exited), one step of the loop from `reading`, and
resumption at the same source position after the pause from `retrying`. -/
def loop_next (follow : Bool) (port : Nat) : LoopState → Option LoopState
  | LoopState.reading src sink =>
    some (match run_step follow port src sink with
      | StepResult.next src1 sink1 => LoopState.reading src1 sink1
      | StepResult.pause ms src1 sink1 => LoopState.retrying ms src1 sink1
      | StepResult.done sink1 => LoopState.termSuccess sink1
      | StepResult.fatal e sink1 => LoopState.termFailure e sink1
      | StepResult.panicked => LoopState.aborted)
  | LoopState.retrying _ src sink => some (LoopState.reading src sink)
  | LoopState.termSuccess _ => none
  | LoopState.termFailure _ _ => none
  | LoopState.aborted => none

/-! ## Derived notions used to state the claims -/

/-- Payload length demanded by a data-packet header (0 for headers that
are not recognised data packets). -/
def data_size (h : Nat) : Nat := (payload_size_of h).getD 0

/-- A (header, payload) pair that `read_packet` accepts as one full data
packet. -/
def is_valid_packet (q : Nat × List Nat) : Bool :=
  (q.1 &&& 0b111 == 1 || q.1 &&& 0b111 == 2 || q.1 &&& 0b111 == 3) &&
    payload_size_of q.1 == some q.2.length

/-- Serialise packets back to the wire: each packet is its header byte
followed by its payload bytes. -/
def encode_stream (ps : List (Nat × List Nat)) : List Nat :=
  (ps.map fun q => q.1 :: q.2).flatten

/-- The bytes the loop should emit: payloads of the packets whose port
matches the target, concatenated in stream order. -/
def routed_output (ps : List (Nat × List Nat)) (port : Nat) : List Nat :=
  ((ps.filter fun q => q.1 >>> 3 == port).map Prod.snd).flatten

/-- New bytes appended to a growing source (follow mode). -/
def append_bytes (src : Source) (more : List Nat) : Source :=
  ⟨src.data ++ more, src.errAfter⟩

/-! ## Helper lemmas about the decoder -/

theorem read_exact_enough (src : Source) (n : Nat) (h : n ≤ src.data.length) :
    read_exact src n =
      (Except.ok (src.data.take n), ⟨src.data.drop n, src.errAfter⟩) := by
  simp [read_exact, h]

theorem read_exact_short_eof (src : Source) (n : Nat)
    (h : src.data.length < n) (he : src.errAfter = none) :
    read_exact src n = (Except.error IoErrK.unexpectedEof, ⟨[], none⟩) := by
  simp [read_exact, Nat.not_le.mpr h, he]

theorem read_exact_short_err (src : Source) (n k : Nat)
    (h : src.data.length < n) (he : src.errAfter = some k) :
    read_exact src n = (Except.error (IoErrK.other k), ⟨[], some k⟩) := by
  simp [read_exact, Nat.not_le.mpr h, he]

/-- Reading one byte from a nonempty source. -/
theorem read_exact_one (b : Nat) (t : List Nat) (f : Option Nat) :
    read_exact ⟨b :: t, f⟩ 1 = (Except.ok [b], ⟨t, f⟩) := by
  simp [read_exact]

/-- The sizes `payload_size_of` can return. -/
theorem payload_size_of_cases (h n : Nat) (hs : payload_size_of h = some n) :
    n = 1 ∨ n = 2 ∨ n = 4 := by
  unfold payload_size_of at hs
  split_ifs at hs <;> simp_all

/-- Pushing `n ≤ 4` zeroes onto an empty payload succeeds and yields `n`
zero bytes. -/
theorem push_zeros_small (n : Nat) (hn : n ≤ MAX_PAYLOAD_SIZE) :
    push_zeros n [] = some (List.replicate n 0) := by
  simp only [MAX_PAYLOAD_SIZE] at hn
  interval_cases n <;> rfl

/-- A recognised data-packet header has `h &&& 0b11 = h &&& 0b111`. -/
theorem and3_of_and7 (h : Nat) (h7 : h &&& 0b111 = 1 ∨ h &&& 0b111 = 2 ∨
    h &&& 0b111 = 3) : h &&& 0b11 = h &&& 0b111 := by
  have e : h &&& 0b111 &&& 0b11 = h &&& 0b11 := by
    rw [Nat.and_assoc]
    congr 1
  rcases h7 with h7 | h7 | h7 <;> rw [← e, h7] <;> decide

/-- Calling `read_packet` on a source holding one full data packet (and possibly
more bytes): the decode succeeds, the payload is exactly the next
`size(h)` bytes, the port is `h >> 3`, and exactly `1 + size(h)` bytes
are consumed. -/
theorem read_packet_valid (h : Nat) (pl rest : List Nat) (f : Option Nat)
    (h7 : h &&& 0b111 = 1 ∨ h &&& 0b111 = 2 ∨ h &&& 0b111 = 3)
    (hsz : payload_size_of h = some pl.length) :
    read_packet ⟨h :: (pl ++ rest), f⟩ =
      (RPResult.ok ⟨h, pl, h >>> 3⟩, ⟨rest, f⟩) := by
  have hlen : pl.length ≤ (pl ++ rest).length := by simp
  have hle : pl.length ≤ MAX_PAYLOAD_SIZE := by
    rcases payload_size_of_cases h pl.length hsz with e | e | e <;>
      simp [e, MAX_PAYLOAD_SIZE]
  unfold read_packet
  rw [read_exact_one]
  simp only [List.headD_cons]
  rw [if_pos h7, hsz]
  simp only [push_zeros_small pl.length hle, List.length_replicate,
    read_exact_enough ⟨pl ++ rest, f⟩ pl.length hlen]
  simp [List.take_left, List.drop_left]

/-- Calling `read_packet` on an unrecognised header: the header byte alone is
consumed and returned inside `UnknownHeader`. -/
theorem read_packet_unknown (h : Nat) (rest : List Nat) (f : Option Nat)
    (h7 : ¬(h &&& 0b111 = 1 ∨ h &&& 0b111 = 2 ∨ h &&& 0b111 = 3)) :
    read_packet ⟨h :: rest, f⟩ =
      (RPResult.err (RPError.UnknownHeader h), ⟨rest, f⟩) := by
  unfold read_packet
  rw [read_exact_one]
  simp only [List.headD_cons]
  rw [if_neg h7]

/-- Calling `read_packet` on an exhausted source with a clean end of input. -/
theorem read_packet_empty_eof :
    read_packet ⟨[], none⟩ =
      (RPResult.err (RPError.ioErr IoErrK.unexpectedEof), ⟨[], none⟩) := rfl

/-- Calling `read_packet` on an exhausted source whose next read fails with an
I/O error other than end of input. -/
theorem read_packet_empty_err (k : Nat) :
    read_packet ⟨[], some k⟩ =
      (RPResult.err (RPError.ioErr (IoErrK.other k)), ⟨[], some k⟩) := rfl

/-- Calling `read_packet` on a valid data-packet header followed by too
few payload bytes before a clean end of input: `EndOfInput`, with the header
and the incomplete payload bytes all consumed. -/
theorem read_packet_short (h : Nat) (pl : List Nat) (n : Nat)
    (h7 : h &&& 0b111 = 1 ∨ h &&& 0b111 = 2 ∨ h &&& 0b111 = 3)
    (hsz : payload_size_of h = some n) (hlt : pl.length < n) :
    read_packet ⟨h :: pl, none⟩ =
      (RPResult.err (RPError.ioErr IoErrK.unexpectedEof), ⟨[], none⟩) := by
  have hle : n ≤ MAX_PAYLOAD_SIZE := by
    rcases payload_size_of_cases h n hsz with e | e | e <;>
      simp [e, MAX_PAYLOAD_SIZE]
  unfold read_packet
  rw [read_exact_one]
  simp only [List.headD_cons]
  rw [if_pos h7, hsz]
  simp only [push_zeros_small n hle, List.length_replicate,
    read_exact_short_eof ⟨pl, none⟩ n hlt rfl]

/-- A successful `read_exact` returns exactly `n` bytes. -/
theorem read_exact_ok_length (src : Source) (n : Nat) (bs : List Nat)
    (src2 : Source) (h : read_exact src n = (Except.ok bs, src2)) :
    bs.length = n := by
  unfold read_exact at h
  split_ifs at h with hle
  · simp only [Prod.mk.injEq, Except.ok.injEq] at h
    obtain ⟨h1, -⟩ := h
    subst h1
    simp [Nat.min_eq_left hle]
  · split at h <;> simp at h

/-- Reading via `read_exact` keeps the error mode of the source. -/
theorem read_exact_errAfter (src : Source) (n : Nat) :
    (read_exact src n).2.errAfter = src.errAfter := by
  unfold read_exact
  split_ifs with hle
  · rfl
  · split <;> simp_all

/-- On a source whose reads fail with a non-EOF I/O error once the data
runs out, `read_exact` never reports `UnexpectedEof`. -/
theorem read_exact_err_ne_eof (src : Source) (n k : Nat)
    (hk : src.errAfter = some k) :
    (read_exact src n).1 ≠ Except.error IoErrK.unexpectedEof := by
  unfold read_exact
  split_ifs with hle
  · simp
  · rw [hk]
    simp

/-- A recognised data-packet header determines its payload size, which is
1, 2 or 4. -/
theorem payload_size_of_valid (h : Nat)
    (h7 : h &&& 0b111 = 1 ∨ h &&& 0b111 = 2 ∨ h &&& 0b111 = 3) :
    payload_size_of h = some (data_size h) ∧
      (data_size h = 1 ∨ data_size h = 2 ∨ data_size h = 4) := by
  have h3 := and3_of_and7 h h7
  rcases h7 with h7 | h7 | h7 <;>
    rw [h7] at h3 <;>
    simp [payload_size_of, data_size, h3]

/-- Calling `read_packet` on a valid data-packet header followed by too
few payload bytes, on a source whose reads then fail with a non-EOF error:
the error is reported as an I/O failure, not as end of input. -/
theorem read_packet_short_errAfter (h : Nat) (pl : List Nat) (n k : Nat)
    (h7 : h &&& 0b111 = 1 ∨ h &&& 0b111 = 2 ∨ h &&& 0b111 = 3)
    (hsz : payload_size_of h = some n) (hlt : pl.length < n) :
    read_packet ⟨h :: pl, some k⟩ =
      (RPResult.err (RPError.ioErr (IoErrK.other k)), ⟨[], some k⟩) := by
  have hle : n ≤ MAX_PAYLOAD_SIZE := by
    rcases payload_size_of_cases h n hsz with e | e | e <;>
      simp [e, MAX_PAYLOAD_SIZE]
  unfold read_packet
  rw [read_exact_one]
  simp only [List.headD_cons]
  rw [if_pos h7, hsz]
  simp only [push_zeros_small n hle, List.length_replicate,
    read_exact_short_err ⟨pl, some k⟩ n k hlt rfl]

/-- Exhaustive description of what one `read_packet` call can produce:
a data packet with payload length 1, 2 or 4; an unknown-header error; an
`UnexpectedEof` (only on a source with a clean end of input); or the
source's own non-EOF I/O error. -/
theorem read_packet_outcomes (src : Source) :
    (∃ p src2, read_packet src = (RPResult.ok p, src2) ∧
      (p.payload.length = 1 ∨ p.payload.length = 2 ∨ p.payload.length = 4)) ∨
    (∃ b src2, read_packet src =
      (RPResult.err (RPError.UnknownHeader b), src2)) ∨
    ((read_packet src).1 = RPResult.err (RPError.ioErr IoErrK.unexpectedEof) ∧
      src.errAfter = none) ∨
    (∃ k, (read_packet src).1 =
      RPResult.err (RPError.ioErr (IoErrK.other k)) ∧ src.errAfter = some k)
    := by
  obtain ⟨data, f⟩ := src
  cases data with
  | nil =>
    cases f with
    | none =>
      refine Or.inr (Or.inr (Or.inl ?_))
      simp [read_packet_empty_eof]
    | some k =>
      refine Or.inr (Or.inr (Or.inr ⟨k, ?_, rfl⟩))
      simp [read_packet_empty_err]
  | cons b t =>
    by_cases h7 : b &&& 0b111 = 1 ∨ b &&& 0b111 = 2 ∨ b &&& 0b111 = 3
    · obtain ⟨hsz, hn⟩ := payload_size_of_valid b h7
      by_cases hlen : data_size b ≤ t.length
      · refine Or.inl ⟨⟨b, t.take (data_size b), b >>> 3⟩,
          ⟨t.drop (data_size b), f⟩, ?_, ?_⟩
        · have hsplit : t = t.take (data_size b) ++ t.drop (data_size b) :=
            (List.take_append_drop _ t).symm
          have htk : (t.take (data_size b)).length = data_size b := by
            simp [Nat.min_eq_left hlen]
          conv in (b :: t) => rw [hsplit]
          exact read_packet_valid b (t.take (data_size b))
            (t.drop (data_size b)) f h7 (by rw [htk]; exact hsz)
        · have htk : (t.take (data_size b)).length = data_size b := by
            simp [Nat.min_eq_left hlen]
          rw [htk]
          exact hn
      · have hlt : t.length < data_size b := Nat.lt_of_not_le hlen
        cases f with
        | none =>
          refine Or.inr (Or.inr (Or.inl ?_))
          rw [read_packet_short b t (data_size b) h7 hsz hlt]
          simp
        | some k =>
          refine Or.inr (Or.inr (Or.inr ⟨k, ?_, rfl⟩))
          rw [read_packet_short_errAfter b t (data_size b) k h7 hsz hlt]
    · exact Or.inr (Or.inl ⟨b, ⟨t, f⟩, read_packet_unknown b t f h7⟩)

/-- The decoder never hits the `expect` panic on `payload.push`. -/
theorem read_packet_ne_panicked (src : Source) :
    (read_packet src).1 ≠ RPResult.panicked := by
  rcases read_packet_outcomes src with ⟨p, s2, e, -⟩ | ⟨b, s2, e⟩ |
      ⟨e, -⟩ | ⟨k, e, -⟩ <;> rw [show (read_packet src).1 = _ from by rw [e]]
    <;> simp

/-- On a source whose reads fail with a non-EOF error once the data runs
out, `read_packet` never reports `UnexpectedEof`. -/
theorem read_packet_errAfter_ne_eof (src : Source) (k : Nat)
    (hk : src.errAfter = some k) :
    (read_packet src).1 ≠
      RPResult.err (RPError.ioErr IoErrK.unexpectedEof) := by
  rcases read_packet_outcomes src with ⟨p, s2, e, -⟩ | ⟨b, s2, e⟩ |
      ⟨e, hnone⟩ | ⟨k2, e, -⟩
  · rw [e]
    simp
  · rw [e]
    simp
  · rw [hk] at hnone
    cases hnone
  · rw [e]
    simp

/-- Every packet `read_packet` returns has payload length 1, 2 or 4. -/
theorem read_packet_ok_payload_length (src : Source) (p : Packet)
    (src2 : Source) (h : read_packet src = (RPResult.ok p, src2)) :
    p.payload.length = 1 ∨ p.payload.length = 2 ∨ p.payload.length = 4 := by
  rcases read_packet_outcomes src with ⟨p2, s2, e, hl⟩ | ⟨b, s2, e⟩ |
      ⟨e, -⟩ | ⟨k, e, -⟩
  · rw [h] at e
    obtain ⟨e1, -⟩ := Prod.mk.injEq .. ▸ e
    cases e1
    exact hl
  · rw [h] at e
    simp at e
  · rw [h] at e
    simp at e
  · rw [h] at e
    simp at e

/-- A header whose payload-size code is `0b00` is never a recognised data
packet: decoding it yields `UnknownHeader`. -/
theorem read_packet_size_code_zero (b : Nat) (rest : List Nat)
    (f : Option Nat) (hz : b &&& 0b11 = 0) :
    read_packet ⟨b :: rest, f⟩ =
      (RPResult.err (RPError.UnknownHeader b), ⟨rest, f⟩) := by
  refine read_packet_unknown b rest f fun h7 => ?_
  have h3 := and3_of_and7 b h7
  rw [hz] at h3
  rcases h7 with h7 | h7 | h7 <;> rw [h7] at h3 <;> cases h3

/-! ## Claim theorems about the decoder -/

/-- C1: for every header byte `h` with `h &&& 0b111 ∈ {1, 2, 3}`,
decoding a stream that begins with `h` followed by at least `size(h)`
further bytes returns `Ok(Packet)` whose `header` is `h`, whose `port` is
`h >> 3`, and whose `payload` is exactly the next `size(h)` bytes in
stream order, consuming exactly `1 + size(h)` bytes from the source. -/
theorem claim_c1 (h : Nat) (pl rest : List Nat) (f : Option Nat)
    (h7 : h &&& 0b111 = 1 ∨ h &&& 0b111 = 2 ∨ h &&& 0b111 = 3)
    (hsz : pl.length = data_size h) :
    read_packet ⟨h :: (pl ++ rest), f⟩ =
      (RPResult.ok ⟨h, pl, h >>> 3⟩, ⟨rest, f⟩) := by
  obtain ⟨hps, -⟩ := payload_size_of_valid h h7
  exact read_packet_valid h pl rest f h7 (by rw [hsz]; exact hps)

/-- Witness for C1 at `h = 0x09`, payload `[0xAB]`, one further byte. -/
theorem claim_c1_witness :
    read_packet ⟨9 :: ([171] ++ [7]), none⟩ =
      (RPResult.ok ⟨9, [171], 9 >>> 3⟩, ⟨[7], none⟩) :=
  claim_c1 9 [171] [7] none (by decide) (by decide)

/-- C2 counterexample: decoding a stream beginning with header byte
`0x02` does not yield `UnknownHeader(0x02)` — its low 3 bits `010 = 2`
are in `{1, 2, 3}`, so the code treats it as a data packet with port 0
and payload size 2. -/
theorem claim_c2_counterexample :
    (read_packet ⟨[2, 5, 6], none⟩).1 ≠
      RPResult.err (RPError.UnknownHeader 2) ∧
    (read_packet ⟨[2, 5, 6], none⟩).1 = RPResult.ok ⟨2, [5, 6], 0⟩ := by
  decide

/-- C2 (amended): decoding header byte `0x09` followed by its one payload
byte yields a data packet with port 1 and payload size 1, while header
byte `0x02` has low 3 bits `010`, which IS a recognised data-packet
pattern: followed by its two payload bytes it decodes to a data packet
with port 0 and payload size 2, not to `UnknownHeader(0x02)`. -/
theorem claim_c2 (b b1 b2 : Nat) (rest : List Nat) (f : Option Nat) :
    read_packet ⟨[9, b], f⟩ = (RPResult.ok ⟨9, [b], 1⟩, ⟨[], f⟩) ∧
    read_packet ⟨2 :: b1 :: b2 :: rest, f⟩ =
      (RPResult.ok ⟨2, [b1, b2], 0⟩, ⟨rest, f⟩) :=
  ⟨read_packet_valid 9 [b] [] f (by decide) rfl,
   read_packet_valid 2 [b1, b2] rest f (by decide) rfl⟩

/-- C4: for every header byte `h` with `h &&& 0b111 ∉ {1, 2, 3}`,
decoding a stream beginning with `h` returns `UnknownHeader(h)` carrying
that exact byte, consumes exactly 1 byte, and reads no payload bytes. -/
theorem claim_c4 (h : Nat) (rest : List Nat) (f : Option Nat)
    (h7 : ¬(h &&& 0b111 = 1 ∨ h &&& 0b111 = 2 ∨ h &&& 0b111 = 3)) :
    read_packet ⟨h :: rest, f⟩ =
      (RPResult.err (RPError.UnknownHeader h), ⟨rest, f⟩) :=
  read_packet_unknown h rest f h7

/-- Witness for C4 at `h = 4` (low 3 bits `100`). -/
theorem claim_c4_witness :
    read_packet ⟨[4, 9], none⟩ =
      (RPResult.err (RPError.UnknownHeader 4), ⟨[9], none⟩) :=
  claim_c4 4 [9] none (by decide)

/-- C5: the decoder returns `EndOfInput` exactly on short reads: an empty
stream gives `EndOfInput` without consuming bytes; a valid data-packet
header followed by fewer payload bytes than its size code requires gives
`EndOfInput`; and a source whose reads fail with any other I/O error
never produces `EndOfInput` (the failure surfaces as `IoFailure`). -/
theorem claim_c5 :
    (read_packet ⟨[], none⟩ =
      (RPResult.err (RPError.ioErr IoErrK.unexpectedEof), ⟨[], none⟩)) ∧
    (∀ h pl n, (h &&& 0b111 = 1 ∨ h &&& 0b111 = 2 ∨ h &&& 0b111 = 3) →
      payload_size_of h = some n → pl.length < n →
      read_packet ⟨h :: pl, none⟩ =
        (RPResult.err (RPError.ioErr IoErrK.unexpectedEof), ⟨[], none⟩)) ∧
    (∀ src k, src.errAfter = some k →
      (read_packet src).1 ≠
        RPResult.err (RPError.ioErr IoErrK.unexpectedEof) ∧
      (read_packet ⟨[], some k⟩).1 =
        RPResult.err (RPError.ioErr (IoErrK.other k))) :=
  ⟨read_packet_empty_eof,
   fun h pl n h7 hsz hlt => read_packet_short h pl n h7 hsz hlt,
   fun src k hk => ⟨read_packet_errAfter_ne_eof src k hk,
     by rw [read_packet_empty_err]⟩⟩

/-- Witness for C5: header `0x0b` (size 4) with only two payload bytes
gives `EndOfInput`; an exhausted source with a pending I/O error gives
`IoFailure`, not `EndOfInput`. -/
theorem claim_c5_witness :
    read_packet ⟨[11, 1, 2], none⟩ =
      (RPResult.err (RPError.ioErr IoErrK.unexpectedEof), ⟨[], none⟩) ∧
    (read_packet ⟨[], some 5⟩).1 ≠
      RPResult.err (RPError.ioErr IoErrK.unexpectedEof) :=
  ⟨claim_c5.2.1 11 [1, 2] 4 (by decide) (by decide) (by decide),
   (claim_c5.2.2 ⟨[], some 5⟩ 5 rfl).1⟩

/-- C6: every successful decode has payload length in `{1, 2, 4}`; a
payload of length 0 never results from a successful decode, and a header
whose size code is `0b00` yields `UnknownHeader` instead. -/
theorem claim_c6 (src : Source) (p : Packet) (src2 : Source)
    (hok : read_packet src = (RPResult.ok p, src2)) :
    (p.payload.length = 1 ∨ p.payload.length = 2 ∨ p.payload.length = 4) ∧
    p.payload.length ≠ 0 ∧
    (∀ b rest f, b &&& 0b11 = 0 →
      read_packet ⟨b :: rest, f⟩ =
        (RPResult.err (RPError.UnknownHeader b), ⟨rest, f⟩)) := by
  have hl := read_packet_ok_payload_length src p src2 hok
  exact ⟨hl, by rcases hl with e | e | e <;> simp [e],
    fun b rest f hz => read_packet_size_code_zero b rest f hz⟩

/-- Witness for C6 at the packet decoded from `[0x0a, 7, 8]`. -/
theorem claim_c6_witness :
    ((⟨10, [7, 8], 1⟩ : Packet).payload.length = 1 ∨
      (⟨10, [7, 8], 1⟩ : Packet).payload.length = 2 ∨
      (⟨10, [7, 8], 1⟩ : Packet).payload.length = 4) ∧
    (⟨10, [7, 8], 1⟩ : Packet).payload.length ≠ 0 ∧
    (∀ b rest f, b &&& 0b11 = 0 →
      read_packet ⟨b :: rest, f⟩ =
        (RPResult.err (RPError.UnknownHeader b), ⟨rest, f⟩)) :=
  claim_c6 ⟨[10, 7, 8], none⟩ ⟨10, [7, 8], 1⟩ ⟨[], none⟩ (by decide)

/-- C9: `read_packet` never panics: the `expect` on `payload.push` is
unreachable because every recognised data-packet header maps to a payload
size of at most `MAX_PAYLOAD_SIZE = 4`, and the inner match arm returning
`UnknownHeader` for `h &&& 0b11 = 0` is unreachable for headers passing
the data-packet filter. -/
theorem claim_c9 (src : Source) (h : Nat)
    (h7 : h &&& 0b111 = 1 ∨ h &&& 0b111 = 2 ∨ h &&& 0b111 = 3) :
    (read_packet src).1 ≠ RPResult.panicked ∧
    (∃ n, payload_size_of h = some n ∧ n ≤ MAX_PAYLOAD_SIZE) := by
  refine ⟨read_packet_ne_panicked src, data_size h,
    (payload_size_of_valid h h7).1, ?_⟩
  rcases (payload_size_of_valid h h7).2 with e | e | e <;>
    simp [e, MAX_PAYLOAD_SIZE]

/-- Witness for C9 at an arbitrary source and header `0x09`. -/
theorem claim_c9_witness :
    (read_packet ⟨[9], none⟩).1 ≠ RPResult.panicked ∧
    (∃ n, payload_size_of 9 = some n ∧ n ≤ MAX_PAYLOAD_SIZE) :=
  claim_c9 ⟨[9], none⟩ 9 (by decide)

/-! ## Helper lemmas about the stream loop -/

/-- Unfolding one iteration of the fuelled loop. -/
theorem run_fuel_succ (n : Nat) (follow : Bool) (port : Nat) (src : Source)
    (sink : SinkModel) :
    run_fuel (n + 1) follow port src sink =
      match run_step follow port src sink with
      | StepResult.next src1 sink1 => run_fuel n follow port src1 sink1
      | StepResult.pause _ src1 sink1 => run_fuel n follow port src1 sink1
      | StepResult.done sink1 => RunOutcome.finished sink1
      | StepResult.fatal e sink1 => RunOutcome.failed e sink1
      | StepResult.panicked => RunOutcome.panicked := rfl

/-- Serialisation of a packet list unfolds one packet at a time. -/
theorem encode_stream_cons (h : Nat) (pl : List Nat)
    (qs : List (Nat × List Nat)) :
    encode_stream ((h, pl) :: qs) = h :: (pl ++ encode_stream qs) := by
  simp [encode_stream]

/-- The loop step never panics. -/
theorem run_step_ne_panicked (follow : Bool) (port : Nat) (src : Source)
    (sink : SinkModel) :
    run_step follow port src sink ≠ StepResult.panicked := by
  have hnp := read_packet_ne_panicked src
  unfold run_step
  rcases hrp : read_packet src with ⟨r, s2⟩
  rw [hrp] at hnp
  simp only at hnp
  cases r with
  | ok p =>
    by_cases hp : p.port = port <;> simp only [hp, if_pos, if_neg]
    · cases hw : sink_write sink p.payload <;> simp
    · simp
  | err e =>
    cases e with
    | UnknownHeader b => simp
    | ioErr k =>
      cases k with
      | unexpectedEof =>
        by_cases hf : follow <;> simp [hf]
      | other c => simp
  | panicked => exact absurd rfl hnp

/-- With `follow` enabled the loop step never exits successfully (the
only successful exit is the EOF-without-follow branch). -/
theorem run_step_follow_ne_done (port : Nat) (src : Source)
    (sink sink2 : SinkModel) :
    run_step true port src sink ≠ StepResult.done sink2 := by
  have hnp := read_packet_ne_panicked src
  unfold run_step
  rcases hrp : read_packet src with ⟨r, s2⟩
  rw [hrp] at hnp
  simp only at hnp
  cases r with
  | ok p =>
    by_cases hp : p.port = port <;> simp only [hp, if_pos, if_neg]
    · cases hw : sink_write sink p.payload <;> simp
    · simp
  | err e =>
    cases e with
    | UnknownHeader b => simp
    | ioErr k =>
      cases k with
      | unexpectedEof => simp
      | other c => simp
  | panicked => exact absurd rfl hnp

/-- Running the loop (without follow) over a stream of whole valid data
packets followed by a clean end of input: each packet is decoded, the
payloads of the packets addressed to the target port are written to the
sink in order, and the loop then terminates successfully. -/
theorem run_fuel_packets (ps : List (Nat × List Nat)) (port : Nat)
    (w : List Nat) (hv : ∀ q ∈ ps, is_valid_packet q = true) :
    run_fuel (ps.length + 1) false port ⟨encode_stream ps, none⟩ ⟨[], w⟩ =
      RunOutcome.finished ⟨[], w ++ routed_output ps port⟩ := by
  induction ps generalizing w with
  | nil =>
    simp [encode_stream, routed_output, run_fuel, run_step,
      read_packet_empty_eof]
  | cons q qs ih =>
    obtain ⟨h, pl⟩ := q
    have hvq := hv (h, pl) (by simp)
    have hvs : ∀ r ∈ qs, is_valid_packet r = true :=
      fun r hr => hv r (by simp [hr])
    simp only [is_valid_packet, Bool.and_eq_true, Bool.or_eq_true,
      beq_iff_eq] at hvq
    obtain ⟨h7, hsz⟩ := hvq
    have hdec : read_packet ⟨h :: (pl ++ encode_stream qs), none⟩ =
        (RPResult.ok ⟨h, pl, h >>> 3⟩, ⟨encode_stream qs, none⟩) :=
      read_packet_valid h pl (encode_stream qs) none (or_assoc.mp h7) hsz
    rw [encode_stream_cons, List.length_cons, run_fuel_succ]
    unfold run_step
    rw [hdec]
    simp only
    by_cases hp : h >>> 3 = port
    · rw [if_pos hp]
      have hw : sink_write ⟨[], w⟩ pl = Except.ok ⟨[], w ++ pl⟩ := rfl
      rw [hw]
      simp only
      rw [ih (w ++ pl) hvs]
      have hro : routed_output ((h, pl) :: qs) port =
          pl ++ routed_output qs port := by
        simp [routed_output, hp]
      rw [hro, List.append_assoc]
    · rw [if_neg hp]
      simp only
      rw [ih w hvs]
      have hro : routed_output ((h, pl) :: qs) port =
          routed_output qs port := by
        simp [routed_output, hp]
      rw [hro]

/-! ## Claim theorems about the stream loop -/

/-- C3: in follow mode, when a payload read is cut short by end of input,
the header and the partial payload bytes already consumed are discarded:
the loop pauses and resumes with the source positioned after the partial
read, so that once new bytes are appended the decoder restarts on exactly
those new bytes, not at the interrupted packet's header boundary. -/
theorem claim_c3 (h : Nat) (pl : List Nat) (n port : Nat) (sink : SinkModel)
    (h7 : h &&& 0b111 = 1 ∨ h &&& 0b111 = 2 ∨ h &&& 0b111 = 3)
    (hsz : payload_size_of h = some n) (hlt : pl.length < n) :
    read_packet ⟨h :: pl, none⟩ =
      (RPResult.err (RPError.ioErr IoErrK.unexpectedEof), ⟨[], none⟩) ∧
    run_step true port ⟨h :: pl, none⟩ sink =
      StepResult.pause retry_pause_millis ⟨[], none⟩ sink ∧
    (∀ more : List Nat,
      read_packet (append_bytes ⟨[], none⟩ more) = read_packet ⟨more, none⟩ ∧
      (append_bytes ⟨[], none⟩ more).data = more ∧
      (append_bytes ⟨h :: pl, none⟩ more).data = h :: (pl ++ more)) := by
  have e := read_packet_short h pl n h7 hsz hlt
  refine ⟨e, ?_, fun more => ⟨rfl, rfl, rfl⟩⟩
  unfold run_step
  rw [e]
  rfl

/-- Witness for C3: header `0x0b` (size 4) with a two-byte partial
payload. -/
theorem claim_c3_witness :
    read_packet ⟨[11, 1, 2], none⟩ =
      (RPResult.err (RPError.ioErr IoErrK.unexpectedEof), ⟨[], none⟩) ∧
    run_step true 0 ⟨[11, 1, 2], none⟩ ⟨[], []⟩ =
      StepResult.pause retry_pause_millis ⟨[], none⟩ ⟨[], []⟩ ∧
    (read_packet (append_bytes ⟨[], none⟩ [9, 7]) =
      read_packet ⟨[9, 7], none⟩) :=
  ⟨(claim_c3 11 [1, 2] 4 0 ⟨[], []⟩ (by decide) (by decide) (by decide)).1,
   (claim_c3 11 [1, 2] 4 0 ⟨[], []⟩ (by decide) (by decide) (by decide)).2.1,
   ((claim_c3 11 [1, 2] 4 0 ⟨[], []⟩ (by decide) (by decide)
      (by decide)).2.2 [9, 7]).1⟩

/-- C7: in non-follow mode, on a finite stream of valid packets followed
by a clean end of input, the loop writes exactly the payloads of the
packets whose port matches the target, in full and in stream order with
nothing else, and terminates successfully. -/
theorem claim_c7 (ps : List (Nat × List Nat)) (port : Nat)
    (hv : ∀ q ∈ ps, is_valid_packet q = true) :
    run_fuel (ps.length + 1) false port ⟨encode_stream ps, none⟩ ⟨[], []⟩ =
      RunOutcome.finished ⟨[], routed_output ps port⟩ := by
  have e := run_fuel_packets ps port [] hv
  simpa using e

/-- Witness for C7: the stream holds a port-1 packet (header `0b00001001`)
and a port-0 packet; with target port 0 only the latter's payload is
written. -/
theorem claim_c7_witness :
    run_fuel 3 false 0 ⟨[9, 170, 1, 5], none⟩ ⟨[], []⟩ =
      RunOutcome.finished ⟨[], [5]⟩ := by
  have e := claim_c7 [(9, [170]), (1, [5])] 0 (by decide)
  simpa [encode_stream, routed_output] using e

/-- C8: the loop's step relation has exactly the documented transitions:
reading continues after a successful decode or an unknown header; on end
of input it moves to a 100 ms pause when following (resuming afterwards
at the current position) and terminates successfully when not following;
any other I/O failure terminates the loop with that error; terminated
states have no outgoing transition; and with follow enabled the loop
never terminates due to end of input. -/
theorem claim_c8 (follow : Bool) (port : Nat) :
    (∀ sink, loop_next follow port (LoopState.termSuccess sink) = none) ∧
    (∀ e sink, loop_next follow port (LoopState.termFailure e sink) = none) ∧
    (∀ ms src sink, loop_next follow port (LoopState.retrying ms src sink) =
      some (LoopState.reading src sink)) ∧
    retry_pause_millis = 100 ∧
    (∀ src sink p src2, read_packet src = (RPResult.ok p, src2) →
      (∃ sink2, loop_next follow port (LoopState.reading src sink) =
        some (LoopState.reading src2 sink2)) ∨
      (∃ k, loop_next follow port (LoopState.reading src sink) =
        some (LoopState.termFailure (RPError.ioErr (IoErrK.other k)) sink))) ∧
    (∀ src sink b src2,
      read_packet src = (RPResult.err (RPError.UnknownHeader b), src2) →
      loop_next follow port (LoopState.reading src sink) =
        some (LoopState.reading src2 sink)) ∧
    (∀ src sink src2,
      read_packet src =
        (RPResult.err (RPError.ioErr IoErrK.unexpectedEof), src2) →
      loop_next follow port (LoopState.reading src sink) =
        some (if follow then LoopState.retrying retry_pause_millis src2 sink
          else LoopState.termSuccess sink)) ∧
    (∀ src sink k src2,
      read_packet src =
        (RPResult.err (RPError.ioErr (IoErrK.other k)), src2) →
      loop_next follow port (LoopState.reading src sink) =
        some (LoopState.termFailure (RPError.ioErr (IoErrK.other k)) sink)) ∧
    (∀ src sink, loop_next follow port (LoopState.reading src sink) ≠ none ∧
      loop_next follow port (LoopState.reading src sink) ≠
        some LoopState.aborted) ∧
    (follow = true → ∀ src sink sink2,
      loop_next follow port (LoopState.reading src sink) ≠
        some (LoopState.termSuccess sink2)) := by
  refine ⟨fun _ => rfl, fun _ _ => rfl, fun _ _ _ => rfl, rfl,
    ?_, ?_, ?_, ?_, ?_, ?_⟩
  · intro src sink p src2 hdec
    by_cases hp : p.port = port
    · cases hw : sink_write sink p.payload with
      | ok sink1 =>
        exact Or.inl ⟨sink1, by simp [loop_next, run_step, hdec, hp, hw]⟩
      | error k =>
        exact Or.inr ⟨k, by simp [loop_next, run_step, hdec, hp, hw]⟩
    · exact Or.inl ⟨sink, by simp [loop_next, run_step, hdec, hp]⟩
  · intro src sink b src2 hdec
    simp [loop_next, run_step, hdec]
  · intro src sink src2 hdec
    cases follow <;> simp [loop_next, run_step, hdec]
  · intro src sink k src2 hdec
    simp [loop_next, run_step, hdec]
  · intro src sink
    constructor
    · unfold loop_next
      simp
    · unfold loop_next
      have hnp := run_step_ne_panicked follow port src sink
      cases hrs : run_step follow port src sink <;> simp [hrs] at hnp ⊢
  · intro hf src sink sink2
    subst hf
    unfold loop_next
    have hnd := run_step_follow_ne_done port src sink sink2
    cases hrs : run_step true port src sink <;> simp [hrs] at hnd ⊢
    exact fun hcontra => hnd (by rw [hcontra])

/-- Witness for C8: the end-of-input transition without follow moves to
successful termination. -/
theorem claim_c8_witness :
    loop_next false 0 (LoopState.reading ⟨[], none⟩ ⟨[], []⟩) =
      some (if false then LoopState.retrying retry_pause_millis ⟨[], none⟩
          ⟨[], []⟩
        else LoopState.termSuccess ⟨[], []⟩) :=
  (claim_c8 false 0).2.2.2.2.2.2.1 ⟨[], none⟩ ⟨[], []⟩ ⟨[], none⟩
    read_packet_empty_eof

/-- C10: if writing a matching packet's payload to the sink fails with
any I/O error, the loop terminates immediately with that error as a
fatal I/O failure — never retried, skipped, or treated as end of input —
regardless of follow mode. -/
theorem claim_c10 (follow : Bool) (port : Nat) (src : Source)
    (sink : SinkModel) (p : Packet) (src2 : Source) (k : Nat)
    (hdec : read_packet src = (RPResult.ok p, src2))
    (hport : p.port = port)
    (hw : sink_write sink p.payload = Except.error k) :
    run_step follow port src sink =
      StepResult.fatal (RPError.ioErr (IoErrK.other k)) sink := by
  unfold run_step
  rw [hdec]
  simp [hport, hw]

/-- Witness for C10: a matching packet whose payload write fails with
error 5, in follow mode. -/
theorem claim_c10_witness :
    run_step true 0 ⟨[1, 7], none⟩ ⟨[some 5], []⟩ =
      StepResult.fatal (RPError.ioErr (IoErrK.other 5)) ⟨[some 5], []⟩ :=
  claim_c10 true 0 ⟨[1, 7], none⟩ ⟨[some 5], []⟩ ⟨1, [7], 0⟩ ⟨[], none⟩ 5
    (by decide) rfl rfl

end Itm
